import Mathlib

/-!
Verification of the provider-routing and response-normalization layer of the
RapidAD-AI backend: a shallow embedding, in Lean, of the decision logic in
src/app.py (response URL extraction, result normalization, video polling) and
src/services/lifestyle_shot.py and src/services/background_removal.py
(image-reference resolution, vision prompt merging, route selection, endpoint
fallback), together with theorems settling the specification claims about it.

Python values that the code inspects dynamically are modelled by a `Json`
inductive; Python exceptions by `Except`; the filesystem, the HTTP network and
the generative model by explicit function-valued environments, so every
definition stays executable. Where Python raises (`len` of a number, indexing
a dict with an integer), the embedding returns `Except.error` with the kind of
error Python would raise.
-/

/-- Dynamic JSON values, as Python represents a decoded provider response. -/
inductive Json
  | null
  | bool (b : Bool)
  | num (n : Int)
  | str (s : String)
  | arr (xs : List Json)
  | obj (kvs : List (String × Json))

/-- The kinds of exception the embedded Python fragments can raise. -/
inductive PyErr
  | typeError
  | keyError
  | indexError
  | exception
deriving DecidableEq

/-- Python dict lookup on a decoded JSON object (a dict cannot repeat keys, so
the first binding of a key stands for the dict entry). -/
def jsonLookup (kvs : List (String × Json)) (k : String) : Option Json :=
  match kvs with
  | [] => none
  | (k2, v) :: rest => if k2 = k then some v else jsonLookup rest k

/-- Python `len(x)`: defined for strings, lists and dicts, a TypeError on
null, booleans and numbers. -/
def pyLen : Json → Except PyErr Nat
  | Json.str s => Except.ok s.length
  | Json.arr xs => Except.ok xs.length
  | Json.obj kvs => Except.ok kvs.length
  | _ => Except.error PyErr.typeError

/-- Python `x[0]`: first element of a list (IndexError when empty), first
character of a string (IndexError when empty), KeyError on a dict decoded
from JSON (its keys are strings, never the integer 0), TypeError otherwise. -/
def pySub0 : Json → Except PyErr Json
  | Json.arr (x :: _) => Except.ok x
  | Json.arr [] => Except.error PyErr.indexError
  | Json.str s =>
    match s.data with
    | c :: _ => Except.ok (Json.str (String.mk [c]))
    | [] => Except.error PyErr.indexError
  | Json.obj _ => Except.error PyErr.keyError
  | _ => Except.error PyErr.typeError

/-- One iteration of the `for item in data["result"]` loop body of
`_extract_urls` (src/app.py): `Except.ok (some v)` appends `v`,
`Except.ok none` skips the element, `Except.error` is a raised exception. -/
def extractItem : Json → Except PyErr (Option Json)
  | Json.obj ikvs =>
    match jsonLookup ikvs "urls" with
    | some u =>
      match pyLen u with
      | Except.error e => Except.error e
      | Except.ok n =>
        if 0 < n then
          match pySub0 u with
          | Except.error e => Except.error e
          | Except.ok v => Except.ok (some v)
        else Except.ok (jsonLookup ikvs "url")
    | none => Except.ok (jsonLookup ikvs "url")
  | Json.arr (x :: _) => Except.ok (some x)
  | Json.arr [] => Except.ok none
  | Json.str s => Except.ok (some (Json.str s))
  | _ => Except.ok none

/-- The whole `for` loop of `_extract_urls` over the `result` list, appending
the extracted entries in order and propagating a raised exception. -/
def extractItems : List Json → Except PyErr (List Json)
  | [] => Except.ok []
  | item :: rest =>
    match extractItem item with
    | Except.error e => Except.error e
    | Except.ok o =>
      match extractItems rest with
      | Except.error e => Except.error e
      | Except.ok r =>
        match o with
        | some v => Except.ok (v :: r)
        | none => Except.ok r

/-- `_extract_urls` (src/app.py, lines 47 to 64): the elif chain over the four
known response shapes, first match wins. A key bound to a value of the wrong
shape fails its `isinstance` test and falls through to the next branch. -/
def extract_urls (data : Json) : Except PyErr (List Json) :=
  match data with
  | Json.obj kvs =>
    match jsonLookup kvs "result_urls" with
    | some (Json.arr xs) => Except.ok xs
    | _ =>
      match jsonLookup kvs "result_url" with
      | some v => Except.ok [v]
      | none =>
        match jsonLookup kvs "result" with
        | some (Json.arr items) => extractItems items
        | _ =>
          match jsonLookup kvs "urls" with
          | some (Json.arr xs) => Except.ok xs
          | _ => Except.ok []
  | _ => Except.ok []

/-- The spec-side description of the `result`-list element mapping, amended
only where the code demonstrably differs from the frozen claim: an object
whose `urls` key holds a non-empty list yields its first entry, one whose
`urls` key holds a non-empty string yields its first character, else an
object with a `url` key yields that value, else a non-empty list yields its
first entry, else a string yields itself; other elements are skipped. Its
value on elements where the extractor raises is never constrained by the
theorems below. -/
def specItemAmended : Json → Option Json
  | Json.obj ikvs =>
    match jsonLookup ikvs "urls" with
    | some (Json.arr (x :: _)) => some x
    | some (Json.str s) =>
      match s.data with
      | c :: _ => some (Json.str (String.mk [c]))
      | [] => jsonLookup ikvs "url"
    | some _ => jsonLookup ikvs "url"
    | none => jsonLookup ikvs "url"
  | Json.arr (x :: _) => some x
  | Json.arr [] => none
  | Json.str s => some (Json.str s)
  | _ => none

/-- The four-shape priority table of the spec, written from the spec words:
result_urls list verbatim, else result_url as a singleton, else the mapped
result list, else urls list verbatim, else empty. -/
def specExtractAmended (data : Json) : List Json :=
  match data with
  | Json.obj kvs =>
    match jsonLookup kvs "result_urls" with
    | some (Json.arr xs) => xs
    | _ =>
      match jsonLookup kvs "result_url" with
      | some v => [v]
      | none =>
        match jsonLookup kvs "result" with
        | some (Json.arr items) => List.filterMap specItemAmended items
        | _ =>
          match jsonLookup kvs "urls" with
          | some (Json.arr xs) => xs
          | _ => []
  | _ => []

/-- The element mapping exactly as the frozen claim C3 words it: only an
object with a non-empty urls LIST yields its first entry (a non-empty urls
string is not covered, so such an element is skipped unless a url key is
present). Used solely to state the claim literally and refute it. -/
def specItemLiteral : Json → Option Json
  | Json.obj ikvs =>
    match jsonLookup ikvs "urls" with
    | some (Json.arr (x :: _)) => some x
    | some _ =>
      match jsonLookup ikvs "url" with
      | some v => some v
      | none => none
    | none => jsonLookup ikvs "url"
  | Json.arr (x :: _) => some x
  | Json.arr [] => none
  | Json.str s => some (Json.str s)
  | _ => none

/-- The extraction table exactly as claim C3 words it, with the literal
element mapping. -/
def specExtractLiteral (data : Json) : List Json :=
  match data with
  | Json.obj kvs =>
    match jsonLookup kvs "result_urls" with
    | some (Json.arr xs) => xs
    | _ =>
      match jsonLookup kvs "result_url" with
      | some v => [v]
      | none =>
        match jsonLookup kvs "result" with
        | some (Json.arr items) => List.filterMap specItemLiteral items
        | _ =>
          match jsonLookup kvs "urls" with
          | some (Json.arr xs) => xs
          | _ => []
  | _ => []

/-- The normalized result contract `{urls, result_url, raw}` both endpoint
handlers build (the `raw` field is the response itself and is carried
implicitly). `result_url` is a `Json` value: Python `None` and JSON null both
serialize to null, so both are `Json.null` here. -/
structure NormalizedResult where
  urls : List Json
  result_url : Json

/-- `result.get("result_url") if isinstance(result, dict) else None`
(src/app.py line 167): the fallback value api_process_photography puts in
`result_url` when the extracted url list is empty. -/
def photoFallback (result : Json) : Json :=
  match result with
  | Json.obj kvs =>
    match jsonLookup kvs "result_url" with
    | some v => v
    | none => Json.null
  | _ => Json.null

/-- Normalization done by api_generate_hd (src/app.py lines 97 to 102):
`urls = _extract_urls(result)` and `result_url = urls[0] if urls else None`.
An exception from the extractor propagates to the surrounding handler. -/
def api_generate_hd_normalize (result : Json) : Except PyErr NormalizedResult :=
  match extract_urls result with
  | Except.error e => Except.error e
  | Except.ok urls =>
    Except.ok
      { urls := urls
        result_url := match urls with | u :: _ => u | [] => Json.null }

/-- Normalization done by api_process_photography (src/app.py lines 165 to
170): as api_generate_hd, but when the url list is empty `result_url` falls
back to the raw response field `result_url`. -/
def api_process_photography_normalize (result : Json) : Except PyErr NormalizedResult :=
  match extract_urls result with
  | Except.error e => Except.error e
  | Except.ok urls =>
    Except.ok
      { urls := urls
        result_url := match urls with | u :: _ => u | [] => photoFallback result }

/-- Whether the character list `s` starts with the list `p`. -/
def listStartsWith : List Char → List Char → Bool
  | _, [] => true
  | [], _ :: _ => false
  | c :: cs, p :: ps => c = p && listStartsWith cs ps

/-- Python `s.startswith(p)`. -/
def strStartsWith (s p : String) : Bool := listStartsWith s.data p.data

/-- Python `s.split(",", 1)[1]`: the text after the first comma, or the
IndexError case (`none`) when the string holds no comma. -/
def afterFirstComma : List Char → Option (List Char)
  | [] => none
  | c :: cs => if c = ',' then some cs else afterFirstComma cs

/-- The whitespace Python `str.strip()` removes on ASCII text. -/
def pyIsSpace (c : Char) : Bool :=
  c = ' ' || c = '\t' || c = '\n' || c = '\r' || c = '\x0b' || c = '\x0c'

/-- Python `s.strip()`. -/
def pyStrip (s : String) : String :=
  String.mk (((s.data.dropWhile pyIsSpace).reverse.dropWhile pyIsSpace).reverse)

/-- Python `s.lstrip("/")`: every leading slash removed. -/
def lstripSlashes (s : String) : String :=
  String.mk (s.data.dropWhile (fun c => c = '/'))

/-- Python truthiness of an optional string: `None` and the empty string are
falsy. -/
def optTruthy : Option String → Bool
  | some s => decide (s ≠ "")
  | none => false

/-- The base64 alphabet of RFC 4648, as `base64.b64encode` uses it. -/
def b64Alphabet : List Char :=
  "ABCDEFGHIJKLMNOPQRSTUVWXYZabcdefghijklmnopqrstuvwxyz0123456789+/".data

def b64Char (n : Nat) : Char := b64Alphabet.getD n '='

/-- Standard base64 of a byte list, three bytes to four characters with `=`
padding, as `base64.b64encode(...).decode("utf-8")` produces. -/
def b64encodeCore : List Nat → List Char
  | [] => []
  | [a] => [b64Char (a / 4), b64Char (a % 4 * 16), '=', '=']
  | [a, b] => [b64Char (a / 4), b64Char (a % 4 * 16 + b / 16), b64Char (b % 16 * 4), '=']
  | a :: b :: c :: rest =>
    b64Char (a / 4) :: b64Char (a % 4 * 16 + b / 16) ::
      b64Char (b % 16 * 4 + c / 64) :: b64Char (c % 64) :: b64encodeCore rest

def b64encode (bs : List Nat) : String := String.mk (b64encodeCore bs)

/-- What `_prepare_image` returns: the pair `(None, None)`, `("file", payload)`
or `("url", value)`. -/
inductive PrepResult
  | noneRes
  | fileRes (payload : String)
  | urlRes (value : String)
deriving DecidableEq

/-- A filesystem as `_prepare_image` sees it: for a path, `none` means the
path does not exist, `some none` that it exists but reading raises, and
`some (some bytes)` its readable contents. -/
def FileSystem : Type := String → Option (Option (List Nat))

/-- `_prepare_image` (src/services/lifestyle_shot.py, lines 191 to 213): a
falsy input yields `(None, None)`; a `data:image` prefix yields the text after
the first comma as an inline file payload (a malformed data URI with no comma
falls back to the url kind); an `http` prefix yields the url kind; anything
else is a local path whose leading slashes are stripped — an existing readable
file yields its base64 contents inline, and a missing file or a read error
(caught and only logged) yields the original string as the inline payload. -/
def prepare_image (fs : FileSystem) (data : String) : PrepResult :=
  if data = "" then PrepResult.noneRes
  else if strStartsWith data "data:image" then
    match afterFirstComma data.data with
    | some rest => PrepResult.fileRes (String.mk rest)
    | none => PrepResult.urlRes data
  else if strStartsWith data "http" then PrepResult.urlRes data
  else
    match fs (lstripSlashes data) with
    | some (some bytes) => PrepResult.fileRes (b64encode bytes)
    | some none => PrepResult.fileRes data
    | none => PrepResult.fileRes data

/-- The environment `merge_vision_and_prompt` runs against: whether the
generative-model library imported, and the effectful steps of its try block.
An image handle is an abstract `Nat`; `Except.error` marks a step that raises.
`b64open` stands for `Image.open(BytesIO(base64.b64decode(x)))` on the text
after the data-URI comma, `httpGetOpen` for `requests.get` plus `Image.open`,
`openLocal` for `Image.open` on a local path, and `generate` for
`model.generate_content(content).text` on the content list (the instruction
text and, when one resolved, the image). -/
structure VisionEnv where
  genai : Bool
  b64open : String → Except PyErr Nat
  httpGetOpen : String → Except PyErr Nat
  pathExists : String → Bool
  openLocal : String → Except PyErr Nat
  generate : List (Sum String Nat) → Except PyErr String

/-- The instruction text of `merge_vision_and_prompt` with the user prompt
interpolated (whitespace condensed and inner quotes dropped; no claim depends
on the exact wording, only on the interpolation of the user prompt). -/
def promptText (userPrompt : String) : String :=
  "Act as a Professional Product Photographer. " ++
  "1. ANALYZE THE REFERENCE IMAGE: Identify the exact physical surface " ++
  "(e.g. wooden table, marble floor), the perspective (e.g. eye-level, " ++
  "top-down), and the lighting. 2. ANALYZE THE USER REQUEST: \"" ++
  userPrompt ++
  "\" 3. MERGE THEM: Create a single, detailed prompt that recreates the " ++
  "EXACT setting of the reference image but incorporates the users specific " ++
  "request. CRITICAL: The product must be naturally placed ON the physical " ++
  "surface from the reference image. Describe the materials, textures, and " ++
  "camera depth. Output ONLY the final merged prompt string."

/-- The content list `[prompt_text]` with the image appended when resolved. -/
def mkContent (txt : String) (img : Option Nat) : List (Sum String Nat) :=
  match img with
  | some h => [Sum.inl txt, Sum.inr h]
  | none => [Sum.inl txt]

/-- The image-resolution steps of `merge_vision_and_prompt`: decode a
data-URI (no comma raises IndexError), fetch an http url, or open a local
path when it exists; a non-existent local path leaves the image as `None`
without raising. Any error propagates to the enclosing try. -/
def resolveRefImage (env : VisionEnv) (ref : String) : Except PyErr (Option Nat) :=
  if strStartsWith ref "data:image" then
    match afterFirstComma ref.data with
    | some rest =>
      match env.b64open (String.mk rest) with
      | Except.error e => Except.error e
      | Except.ok h => Except.ok (some h)
    | none => Except.error PyErr.indexError
  else if strStartsWith ref "http" then
    match env.httpGetOpen ref with
    | Except.error e => Except.error e
    | Except.ok h => Except.ok (some h)
  else if env.pathExists ref then
    match env.openLocal ref with
    | Except.error e => Except.error e
    | Except.ok h => Except.ok (some h)
  else Except.ok none

/-- The body of the try block of `merge_vision_and_prompt`: resolve the
reference image, invoke the model on the instruction text plus image, return
`response.text.strip()`; any raised step makes the whole block raise. -/
def merge_vision_core (env : VisionEnv) (ref userPrompt : String) : Except PyErr String :=
  match resolveRefImage env ref with
  | Except.error e => Except.error e
  | Except.ok img =>
    match env.generate (mkContent (promptText userPrompt) img) with
    | Except.error e => Except.error e
    | Except.ok t => Except.ok (pyStrip t)

/-- `merge_vision_and_prompt` (src/services/lifestyle_shot.py, lines 12 to
63): returns the user prompt unchanged when the library is unavailable or the
key is falsy, runs the try block otherwise, and catches any exception from it
by returning the user prompt unchanged. Total by construction: no error value
escapes. -/
def merge_vision_and_prompt (env : VisionEnv) (gemini_api_key : Option String)
    (ref_image_data user_prompt : String) : String :=
  if !env.genai || !optTruthy gemini_api_key then user_prompt
  else
    match merge_vision_core env ref_image_data user_prompt with
    | Except.ok t => t
    | Except.error _ => user_prompt

/-- How an image lands in the request dict: `fileF p` is a `file` (or
`ref_image_file`) key holding `p`, `urlF v` an `image_url` (or
`ref_image_url`) key holding `v` (`urlF none` is Python `None`, from the
`(None, None)` return of `_prepare_image` on a falsy input). -/
inductive ImgField
  | fileF (payload : String)
  | urlF (value : Option String)
deriving DecidableEq

/-- The `if prod_key == "file"` dispatch after `_prepare_image`. -/
def toImgField : PrepResult → ImgField
  | PrepResult.noneRes => ImgField.urlF none
  | PrepResult.fileRes s => ImgField.fileF s
  | PrepResult.urlRes s => ImgField.urlF (some s)

def lifestyle_shot_by_text_url : String :=
  "https://engine.prod.bria-api.com/v1/product/lifestyle_shot_by_text"

def lifestyle_shot_by_image_url : String :=
  "https://engine.prod.bria-api.com/v1/product/lifestyle_shot_by_image"

/-- The request `generate_product_shot` posts: the endpoint url and the dict.
`ref = none` means the body holds neither a `ref_image_file` nor a
`ref_image_url` key; `scene_description = none` that it holds no
`scene_description` key. The four scalar passthrough fields are carried
verbatim and `placement_type` is set unconditionally at the end. -/
structure ShotRequest where
  url : String
  file_or_image_url : ImgField
  ref : Option ImgField
  scene_description : Option String
  num_results : Nat
  sync : Bool
  force_rmbg : Bool
  content_moderation : Bool
  placement_type : String
deriving DecidableEq

/-- The fixed default studio prompt of `generate_product_shot`. -/
def DEFAULT_PROMPT : String :=
  "High-end studio product photography, professional lighting, photorealistic, integrated shadows, 8k."

/-- `is_custom_prompt = scene_description and scene_description.strip() != DEFAULT_PROMPT.strip()`:
truthy scene description whose stripped text differs from the stripped
default. -/
def is_custom_prompt (scene_description : Option String) : Bool :=
  optTruthy scene_description &&
    decide (pyStrip (scene_description.getD "") ≠ pyStrip DEFAULT_PROMPT)

/-- `generate_product_shot` (src/services/lifestyle_shot.py, lines 226 to
310): prepares the product image, then routes by the elif chain — (1) not a
custom prompt and a reference present: by-image with the prepared reference;
(2) custom prompt, reference and vision key present: by-text with the merged
prompt and no reference key; (3) a truthy scene description: by-text with it;
(4) otherwise by-image, with the reference only when present. `fs` is the
filesystem `_prepare_image` reads, `venv` the vision-merger environment. -/
def generate_product_shot (fs : FileSystem) (venv : VisionEnv)
    (image_data : String) (ref_image_data : Option String)
    (scene_description : Option String) (gemini_api_key : Option String)
    (num_results : Nat) (sync : Bool) (force_rmbg : Bool)
    (content_moderation : Bool) : ShotRequest :=
  let base : ShotRequest :=
    { url := ""
      file_or_image_url := toImgField (prepare_image fs image_data)
      ref := none
      scene_description := none
      num_results := num_results
      sync := sync
      force_rmbg := force_rmbg
      content_moderation := content_moderation
      placement_type := "original" }
  if !is_custom_prompt scene_description && optTruthy ref_image_data then
    { base with
        url := lifestyle_shot_by_image_url
        ref := some (toImgField (prepare_image fs (ref_image_data.getD ""))) }
  else if is_custom_prompt scene_description && optTruthy ref_image_data &&
      optTruthy gemini_api_key then
    { base with
        url := lifestyle_shot_by_text_url
        scene_description := some (merge_vision_and_prompt venv gemini_api_key
          (ref_image_data.getD "") (scene_description.getD "")) }
  else if optTruthy scene_description then
    { base with
        url := lifestyle_shot_by_text_url
        scene_description := scene_description }
  else
    { base with
        url := lifestyle_shot_by_image_url
        ref := if optTruthy ref_image_data then
            some (toImgField (prepare_image fs (ref_image_data.getD "")))
          else none }

/-- A value in the background-removal request dict. -/
inductive BodyVal
  | s (v : String)
  | b (v : Bool)
deriving DecidableEq

/-- Python truthiness of optional bytes: `None` and empty bytes are falsy. -/
def bytesTruthy : Option (List Nat) → Bool
  | some (_ :: _) => true
  | _ => false

/-- The request body `remove_background` builds
(src/services/background_removal.py, lines 33 to 44): the two scalar fields,
then `image_url` when truthy, else the base64 `file` when the bytes are
truthy, else the ValueError raise (here `Except.error`). -/
def rb_body (image_data : Option (List Nat)) (image_url : Option String)
    (sync content_moderation : Bool) : Except PyErr (List (String × BodyVal)) :=
  let base := [("sync", BodyVal.b sync), ("content_moderation", BodyVal.b content_moderation)]
  if optTruthy image_url then
    Except.ok (base ++ [("image_url", BodyVal.s (image_url.getD ""))])
  else if bytesTruthy image_data then
    Except.ok (base ++ [("file", BodyVal.s (b64encode (image_data.getD [])))])
  else Except.error PyErr.exception

/-- Whether the request dict holds the key `k`. -/
def hasKey (body : List (String × BodyVal)) (k : String) : Bool :=
  body.any (fun kv => decide (kv.1 = k))

def rb_primary_url : String := "https://engine.prod.bria-api.com/v1/background/remove"

def rb_alt1_url : String := "https://engine.prod.bria-api.com/v1/remove_background"

def rb_alt2_url : String := "https://engine.prod.bria-api.com/v2/background/remove"

/-- An HTTP response as `remove_background` reads it: status code and decoded
JSON body. -/
structure HttpResp where
  status : Nat
  body : Json

/-- How `remove_background` can fail: the ValueError for no input, or the
`raise_for_status` exception carrying the final status code. -/
inductive RBErr
  | valueError
  | httpError (status : Nat)

/-- `response.raise_for_status()` then `response.json()`: any status of 400
or above raises, anything below passes the body through. -/
def rb_finish (resp : HttpResp) : Except RBErr Json :=
  if 400 ≤ resp.status then Except.error (RBErr.httpError resp.status)
  else Except.ok resp.body

/-- `remove_background` (src/services/background_removal.py, lines 5 to 73)
against a network `net` mapping an endpoint url and a request body to the
response. Returns the list of endpoint urls attempted, in order, and the
outcome: post to the primary endpoint; on a 400 repost to the first
alternative; on another 400 repost to the second alternative; then
raise_for_status on whatever response is current. -/
def remove_background (net : String → List (String × BodyVal) → HttpResp)
    (image_data : Option (List Nat)) (image_url : Option String)
    (sync content_moderation : Bool) : List String × Except RBErr Json :=
  match rb_body image_data image_url sync content_moderation with
  | Except.error _ => ([], Except.error RBErr.valueError)
  | Except.ok body =>
    let r1 := net rb_primary_url body
    if r1.status = 400 then
      let r2 := net rb_alt1_url body
      if r2.status = 400 then
        let r3 := net rb_alt2_url body
        ([rb_primary_url, rb_alt1_url, rb_alt2_url], rb_finish r3)
      else ([rb_primary_url, rb_alt1_url], rb_finish r2)
    else ([rb_primary_url], rb_finish r1)

/-- One status-check response of the video operation: still running, or done
with an error field (truthy means failure) and the first generated video uri. -/
inductive PollStatus
  | notDone
  | done (error : Option String) (uri : String)

/-- The client-visible outcome of api_generate_video and the HTTP status it
is returned with. -/
inductive VideoResponse
  | ok (video_url : String)
  | err (detail : String)
  | timeout
deriving DecidableEq

/-- The HTTP status api_generate_video pairs with each outcome: 200 for a
video url, 500 for a reported error, 504 for the timeout. -/
def videoHttpStatus : VideoResponse → Nat
  | VideoResponse.ok _ => 200
  | VideoResponse.err _ => 500
  | VideoResponse.timeout => 504

/-- The poll loop of api_generate_video (src/app.py, lines 222 to 232): each
iteration sleeps 10 seconds then checks the operation once; `poll k` is the
k-th check. Returns (number of checks made, seconds slept, outcome); when the
fuel (40 in the code) runs out the outcome is the timeout. -/
def runPoll (poll : Nat → PollStatus) : Nat → Nat → Nat × Nat × VideoResponse
  | 0, _ => (0, 0, VideoResponse.timeout)
  | fuel + 1, idx =>
    match poll idx with
    | PollStatus.notDone =>
      let rest := runPoll poll fuel (idx + 1)
      (rest.1 + 1, rest.2.1 + 10, rest.2.2)
    | PollStatus.done e uri =>
      if optTruthy e then (1, 10, VideoResponse.err (e.getD ""))
      else (1, 10, VideoResponse.ok uri)

/-- The loop as the handler runs it: `for _ in range(40)` starting at the
first check. -/
def api_generate_video_poll (poll : Nat → PollStatus) : Nat × Nat × VideoResponse :=
  runPoll poll 40 0

/-- A filesystem with no files, for concrete route evaluations. -/
def fsEmpty : FileSystem := fun _ => none

/-- A vision environment whose every step succeeds and whose model returns
the fixed text "merged scene", for concrete route evaluations. -/
def venvTrivial : VisionEnv :=
  { genai := true
    b64open := fun _ => Except.ok 0
    httpGetOpen := fun _ => Except.ok 0
    pathExists := fun _ => false
    openLocal := fun _ => Except.ok 0
    generate := fun _ => Except.ok "merged scene" }

/-- A filesystem holding one readable file "x" with bytes "hi", used for the
local-path claims. -/
def fsOneFile : FileSystem := fun p => if p = "x" then some (some [104, 105]) else none

/-- A network for the witness: the primary and first alternative endpoints
answer 400, the second alternative answers 200 with body "done". -/
def netTwoFallbacks : String → List (String × BodyVal) → HttpResp := fun u _ =>
  if u = rb_primary_url then { status := 400, body := Json.null }
  else if u = rb_alt1_url then { status := 400, body := Json.null }
  else { status := 200, body := Json.str "done" }

theorem extractItem_ok (i : Json) (o : Option Json) (h : extractItem i = Except.ok o) :
    o = specItemAmended i := by
  cases i with
  | obj ikvs =>
    cases hu : jsonLookup ikvs "urls" with
    | none => simp_all [extractItem, specItemAmended]
    | some u =>
      cases u with
      | null => simp_all [extractItem, pyLen]
      | bool b => simp_all [extractItem, pyLen]
      | num n => simp_all [extractItem, pyLen]
      | str s =>
        obtain ⟨cs⟩ := s
        cases cs with
        | nil => simp_all [extractItem, specItemAmended, pyLen, pySub0, String.length]
        | cons c rest =>
          simp_all [extractItem, specItemAmended, pyLen, pySub0, String.length]
      | arr xs =>
        cases xs with
        | nil => simp_all [extractItem, specItemAmended, pyLen, pySub0]
        | cons x rest => simp_all [extractItem, specItemAmended, pyLen, pySub0]
      | obj kvs2 =>
        cases kvs2 with
        | nil => simp_all [extractItem, specItemAmended, pyLen, pySub0]
        | cons p ps => simp_all [extractItem, pyLen, pySub0]
  | arr xs =>
    cases xs with
    | nil => simp_all [extractItem, specItemAmended]
    | cons x rest => simp_all [extractItem, specItemAmended]
  | str s => simp_all [extractItem, specItemAmended]
  | null => simp_all [extractItem, specItemAmended]
  | bool b => simp_all [extractItem, specItemAmended]
  | num n => simp_all [extractItem, specItemAmended]

theorem extractItems_ok (items : List Json) :
    ∀ r, extractItems items = Except.ok r → r = List.filterMap specItemAmended items := by
  induction items with
  | nil =>
    intro r h
    simp only [extractItems, Except.ok.injEq] at h
    simp [← h]
  | cons i rest ih =>
    intro r h
    simp only [extractItems] at h
    cases hi : extractItem i with
    | error e => rw [hi] at h; exact absurd h (by simp)
    | ok o =>
      rw [hi] at h
      cases hr : extractItems rest with
      | error e => rw [hr] at h; exact absurd h (by simp)
      | ok rr =>
        rw [hr] at h
        have hrr := ih rr hr
        have ho := extractItem_ok i o hi
        cases o with
        | some v =>
          simp only [Except.ok.injEq] at h
          simp [← h, List.filterMap_cons, ← ho, hrr]
        | none =>
          simp only [Except.ok.injEq] at h
          simp [← h, List.filterMap_cons, ← ho, hrr]

/-- C3, counterexample to the claim as frozen: on the input
`{"result": [{"urls": "ab"}]}` the extractor returns `["a"]` — Python
`len("ab") > 0` holds and `"ab"[0]` is `"a"` — while the claim's table (an
object with a non-empty urls LIST yields its first entry, else a url key,
else skip) yields the empty list. -/
theorem c3_counterexample :
    extract_urls (Json.obj [("result", Json.arr [Json.obj [("urls", Json.str "ab")]])])
      = Except.ok [Json.str "a"]
    ∧ specExtractLiteral (Json.obj [("result", Json.arr [Json.obj [("urls", Json.str "ab")]])])
      = []
    ∧ (Json.str "a" :: ([] : List Json)) ≠ [] :=
  ⟨rfl, rfl, fun h => List.noConfusion h⟩

/-- C3, amended: for every JSON input on which `_extract_urls` returns
without raising, the four known response shapes are checked in priority
order, first match wins and results are not merged — result_urls holding a
list is returned verbatim; else result_url present yields a single-element
list; else result holding a list is mapped element-wise, where an object
whose urls key holds a non-empty list yields the first entry, one whose urls
key holds a non-empty string yields its first character, else a url key
yields that value, else a non-empty list element yields its first entry, else
a string element yields itself, and other elements are skipped; else urls
holding a list is returned verbatim; otherwise, and on any non-object input,
the empty list is returned. -/
theorem c3_extract_priority_amended (j : Json) (r : List Json)
    (h : extract_urls j = Except.ok r) : r = specExtractAmended j := by
  cases j with
  | obj kvs =>
    simp only [extract_urls] at h
    simp only [specExtractAmended]
    repeat' split at h
    all_goals try simp_all
    all_goals try exact extractItems_ok _ _ h
  | arr xs => simp_all [extract_urls, specExtractAmended]
  | str s => simp_all [extract_urls, specExtractAmended]
  | null => simp_all [extract_urls, specExtractAmended]
  | bool b => simp_all [extract_urls, specExtractAmended]
  | num n => simp_all [extract_urls, specExtractAmended]

/-- C3, witness: the amended theorem applied at the concrete shape-1 input
`{"result_urls": ["u1", "u2"]}`, on which the extractor returns without
raising. -/
theorem c3_amended_witness :
    ([Json.str "u1", Json.str "u2"] : List Json) =
      specExtractAmended (Json.obj [("result_urls", Json.arr [Json.str "u1", Json.str "u2"])]) :=
  c3_extract_priority_amended
    (Json.obj [("result_urls", Json.arr [Json.str "u1", Json.str "u2"])])
    [Json.str "u1", Json.str "u2"] rfl

/-- C4: the claim says `_extract_urls` never raises, and the code comments
and spec agree that is the intent — but on `{"result": [{"urls": 5}]}` the
code evaluates `len(5)` and raises TypeError. This theorem evaluates the
embedded code at that failing input. -/
theorem c4_failing_input_raises :
    extract_urls (Json.obj [("result", Json.arr [Json.obj [("urls", Json.num 5)]])])
      = Except.error PyErr.typeError := rfl

/-- C5, counterexample to the claim as frozen: the provider response
`{"result_urls": [], "result_url": "u"}` extracts to an empty url list, yet
api_process_photography sets `result_url` from the raw response fallback to
`"u"`, not null — `result_url` non-null with `urls` empty. -/
theorem c5_counterexample :
    api_process_photography_normalize
        (Json.obj [("result_urls", Json.arr []), ("result_url", Json.str "u")])
      = Except.ok { urls := [], result_url := Json.str "u" }
    ∧ Json.str "u" ≠ Json.null :=
  ⟨rfl, fun h => Json.noConfusion h⟩

/-- C5, amended: in every normalized response, `result_url` equals the first
element of `urls` when `urls` is non-empty; when `urls` is empty,
api_generate_hd returns `result_url` null (so there non-null `result_url`
implies non-empty `urls`), while api_process_photography falls back to the
raw response's top-level result_url field (null when absent or when the
response is not a JSON object). -/
theorem c5_result_url_amended (result : Json) :
    (∀ nr, api_generate_hd_normalize result = Except.ok nr →
      ((∀ u us, nr.urls = u :: us → nr.result_url = u)
        ∧ (nr.urls = [] → nr.result_url = Json.null)
        ∧ (nr.result_url ≠ Json.null → nr.urls ≠ [])))
    ∧ (∀ nr, api_process_photography_normalize result = Except.ok nr →
      ((∀ u us, nr.urls = u :: us → nr.result_url = u)
        ∧ (nr.urls = [] → nr.result_url = photoFallback result))) := by
  constructor
  · intro nr h
    simp only [api_generate_hd_normalize] at h
    cases he : extract_urls result with
    | error e => rw [he] at h; exact absurd h (by simp)
    | ok urls =>
      rw [he] at h
      simp only [Except.ok.injEq] at h
      refine ⟨?_, ?_, ?_⟩
      · intro u us hu
        rw [← h] at hu ⊢
        simp only at hu
        simp [hu]
      · intro hu
        rw [← h] at hu ⊢
        simp only at hu
        simp [hu]
      · intro hnn hu
        rw [← h] at hnn hu
        simp only at hu
        simp [hu] at hnn
  · intro nr h
    simp only [api_process_photography_normalize] at h
    cases he : extract_urls result with
    | error e => rw [he] at h; exact absurd h (by simp)
    | ok urls =>
      rw [he] at h
      simp only [Except.ok.injEq] at h
      constructor
      · intro u us hu
        rw [← h] at hu ⊢
        simp only at hu
        simp [hu]
      · intro hu
        rw [← h] at hu ⊢
        simp only at hu
        simp [hu]

/-- C5, witness: the amended theorem applied to the concrete response
`{"result_url": "u"}`, whose normalization by api_generate_hd yields
`urls = ["u"]` and `result_url = "u"`, the first element. -/
theorem c5_amended_witness :
    ({ urls := [Json.str "u"], result_url := Json.str "u" } : NormalizedResult).result_url
      = Json.str "u" :=
  ((c5_result_url_amended (Json.obj [("result_url", Json.str "u")])).1
    { urls := [Json.str "u"], result_url := Json.str "u" } rfl).1 (Json.str "u") [] rfl

/-- C1, counterexample to the claim as frozen: the scene description formed
by one space followed by the default studio prompt is present and differs
from the default as a string, so by the claim it is a custom scene
description and with a reference image and a vision key the by-text endpoint
must be selected — but the code compares stripped text, treats it as the
default, and selects the by-image endpoint. -/
theorem c1_counterexample :
    (" " ++ DEFAULT_PROMPT) ≠ ""
    ∧ (" " ++ DEFAULT_PROMPT) ≠ DEFAULT_PROMPT
    ∧ (generate_product_shot fsEmpty venvTrivial "prod" (some "http://r")
        (some (" " ++ DEFAULT_PROMPT)) (some "k") 4 false false false).url
      = lifestyle_shot_by_image_url
    ∧ lifestyle_shot_by_image_url ≠ lifestyle_shot_by_text_url := by
  refine ⟨by decide, by decide, rfl, by decide⟩

/-- C1, amended: the route is selected by the decision table evaluated top to
bottom, first matching branch wins, where "custom prompt" means a truthy
scene description whose whitespace-stripped text differs from the stripped
default studio prompt — (1) no custom prompt and a truthy reference image:
by-image with product and prepared reference and no scene_description key;
(2) custom prompt, truthy reference and truthy vision key: by-text with the
merged prompt and no reference key; (3) otherwise a truthy scene description:
by-text with it; (4) otherwise, a truthy reference image: by-image with
product and prepared reference (a combination the earlier branches make
unreachable). -/
theorem c1_routes_amended (fs : FileSystem) (venv : VisionEnv)
    (image_data : String) (ref sd key : Option String)
    (n : Nat) (sy fr cm : Bool) :
    let req := generate_product_shot fs venv image_data ref sd key n sy fr cm
    ((!is_custom_prompt sd && optTruthy ref) = true →
      req.url = lifestyle_shot_by_image_url
      ∧ req.ref = some (toImgField (prepare_image fs (ref.getD "")))
      ∧ req.scene_description = none)
    ∧ ((is_custom_prompt sd && optTruthy ref && optTruthy key) = true →
      req.url = lifestyle_shot_by_text_url
      ∧ req.scene_description
          = some (merge_vision_and_prompt venv key (ref.getD "") (sd.getD ""))
      ∧ req.ref = none)
    ∧ ((!is_custom_prompt sd && optTruthy ref) = false →
       (is_custom_prompt sd && optTruthy ref && optTruthy key) = false →
       optTruthy sd = true →
      req.url = lifestyle_shot_by_text_url
      ∧ req.scene_description = sd
      ∧ req.ref = none)
    ∧ ((!is_custom_prompt sd && optTruthy ref) = false →
       (is_custom_prompt sd && optTruthy ref && optTruthy key) = false →
       optTruthy sd = false →
       optTruthy ref = true →
      req.url = lifestyle_shot_by_image_url
      ∧ req.ref = some (toImgField (prepare_image fs (ref.getD "")))) := by
  refine ⟨?_, ?_, ?_, ?_⟩
  · intro h1
    simp [generate_product_shot, h1]
  · intro h2
    simp only [Bool.and_eq_true] at h2
    obtain ⟨⟨hic, hr⟩, hk⟩ := h2
    simp [generate_product_shot, hic, hr, hk]
  · intro h1 h2 h3
    simp [generate_product_shot, h1, h2, h3]
  · intro h1 h2 h3 h4
    exfalso
    have hic : is_custom_prompt sd = false := by
      simp [is_custom_prompt, h3]
    rw [hic, h4] at h1
    simp at h1

/-- C1, witness: the amended theorem's first branch applied at concrete
inputs — no scene description, reference image "http://r" — selecting the
by-image route with the reference url in the body and no scene_description
key. -/
theorem c1_amended_witness :
    (generate_product_shot fsEmpty venvTrivial "p" (some "http://r") none none
        4 false false false).url = lifestyle_shot_by_image_url
    ∧ (generate_product_shot fsEmpty venvTrivial "p" (some "http://r") none none
        4 false false false).ref = some (ImgField.urlF (some "http://r"))
    ∧ (generate_product_shot fsEmpty venvTrivial "p" (some "http://r") none none
        4 false false false).scene_description = none :=
  (c1_routes_amended fsEmpty venvTrivial "p" (some "http://r") none none
    4 false false false).1 rfl

/-- C2: whenever generate_product_shot takes the Creative-Merge route — the
code's custom-prompt test true, reference truthy, vision key truthy — the
request goes to the by-text endpoint with the prepared product image and the
merged prompt as scene_description, and the body holds neither a
ref_image_file nor a ref_image_url key. -/
theorem c2_creative_merge_body (fs : FileSystem) (venv : VisionEnv)
    (image_data : String) (ref sd key : Option String)
    (n : Nat) (sy fr cm : Bool)
    (hc : is_custom_prompt sd = true) (hr : optTruthy ref = true)
    (hk : optTruthy key = true) :
    (generate_product_shot fs venv image_data ref sd key n sy fr cm).url
      = lifestyle_shot_by_text_url
    ∧ (generate_product_shot fs venv image_data ref sd key n sy fr cm).file_or_image_url
      = toImgField (prepare_image fs image_data)
    ∧ (generate_product_shot fs venv image_data ref sd key n sy fr cm).scene_description
      = some (merge_vision_and_prompt venv key (ref.getD "") (sd.getD ""))
    ∧ (generate_product_shot fs venv image_data ref sd key n sy fr cm).ref = none := by
  simp [generate_product_shot, hc, hr, hk]

/-- C2, witness: the theorem applied at a concrete Creative-Merge input — the
custom scene "put it on grass", reference "http://r", key "k" — where the
merged prompt evaluates to the model text "merged scene". -/
theorem c2_witness :
    (generate_product_shot fsEmpty venvTrivial "p" (some "http://r")
        (some "put it on grass") (some "k") 4 false false false).url
      = lifestyle_shot_by_text_url
    ∧ (generate_product_shot fsEmpty venvTrivial "p" (some "http://r")
        (some "put it on grass") (some "k") 4 false false false).file_or_image_url
      = ImgField.fileF "p"
    ∧ (generate_product_shot fsEmpty venvTrivial "p" (some "http://r")
        (some "put it on grass") (some "k") 4 false false false).scene_description
      = some "merged scene"
    ∧ (generate_product_shot fsEmpty venvTrivial "p" (some "http://r")
        (some "put it on grass") (some "k") 4 false false false).ref = none :=
  c2_creative_merge_body fsEmpty venvTrivial "p" (some "http://r")
    (some "put it on grass") (some "k") 4 false false false (by decide) rfl rfl

/-- C6, counterexample to the claim as frozen: the claim says a single
leading path separator is stripped, but `lstrip("/")` strips them all. On
input "//x" over a filesystem where "x" exists (bytes "hi") and "/x" does
not, the claim predicts the single-strip path "/x", a miss, and therefore the
original string "//x" as inline payload — the code strips both slashes, finds
"x" and returns its base64 contents "aGk=". -/
theorem c6_counterexample :
    prepare_image fsOneFile "//x" = PrepResult.fileRes "aGk="
    ∧ fsOneFile "/x" = none
    ∧ fsOneFile "x" = some (some [104, 105])
    ∧ PrepResult.fileRes "aGk=" ≠ PrepResult.fileRes "//x" :=
  ⟨rfl, rfl, rfl, by decide⟩

/-- C6, amended: for every non-empty string input starting with neither the
data-URI prefix nor http, the resolver treats it as a local path with ALL
leading path separators stripped; if the resulting path exists and is
readable it returns inline kind with the base64 encoding of the file
contents; if the path does not exist it returns the original string itself as
the inline payload; and a local file-read error is caught and logged, the
original string again returned inline, never propagated. -/
theorem c6_local_path_amended (fs : FileSystem) (data : String)
    (hne : data ≠ "") (hd : strStartsWith data "data:image" = false)
    (hh : strStartsWith data "http" = false) :
    (∀ bytes, fs (lstripSlashes data) = some (some bytes) →
      prepare_image fs data = PrepResult.fileRes (b64encode bytes))
    ∧ (fs (lstripSlashes data) = none →
      prepare_image fs data = PrepResult.fileRes data)
    ∧ (fs (lstripSlashes data) = some none →
      prepare_image fs data = PrepResult.fileRes data) := by
  refine ⟨?_, ?_, ?_⟩ <;> intro h1 <;> try intro h2
  · simp [prepare_image, hne, hd, hh, h2]
  · simp [prepare_image, hne, hd, hh, h1]
  · simp [prepare_image, hne, hd, hh, h1]

/-- C6, witness: the amended theorem applied at the concrete path "/x" over
`fsOneFile`: one slash stripped leaves the existing file "x", whose bytes
"hi" encode to "aGk=". -/
theorem c6_amended_witness :
    prepare_image fsOneFile "/x" = PrepResult.fileRes "aGk=" :=
  (c6_local_path_amended fsOneFile "/x" (by decide) rfl rfl).1 [104, 105] rfl

/-- C7: merge_vision_and_prompt is total (never raises: every failure path of
the embedded try block yields a value), returns the user prompt unchanged
when the library is unavailable, when the key is missing or empty, when the
data-URI reference has no comma (the IndexError of split), and when any step
of the try block raises; and on success returns the model response text
stripped of surrounding whitespace. -/
theorem c7_merge_never_raises (env : VisionEnv) (key : Option String)
    (ref p : String) :
    (env.genai = false → merge_vision_and_prompt env key ref p = p)
    ∧ (optTruthy key = false → merge_vision_and_prompt env key ref p = p)
    ∧ (∀ e, merge_vision_core env ref p = Except.error e →
        merge_vision_and_prompt env key ref p = p)
    ∧ (strStartsWith ref "data:image" = true → afterFirstComma ref.data = none →
        merge_vision_and_prompt env key ref p = p)
    ∧ (∀ img t, env.genai = true → optTruthy key = true →
        resolveRefImage env ref = Except.ok img →
        env.generate (mkContent (promptText p) img) = Except.ok t →
        merge_vision_and_prompt env key ref p = pyStrip t) := by
  refine ⟨?_, ?_, ?_, ?_, ?_⟩
  · intro hg; simp [merge_vision_and_prompt, hg]
  · intro hk; simp [merge_vision_and_prompt, hk]
  · intro e he
    simp only [merge_vision_and_prompt]
    cases hg : env.genai with
    | false => simp
    | true =>
      cases hk : optTruthy key with
      | false => simp
      | true => simp [he]
  · intro hd hc
    have he : merge_vision_core env ref p = Except.error PyErr.indexError := by
      simp [merge_vision_core, resolveRefImage, hd, hc]
    simp only [merge_vision_and_prompt]
    cases hg : env.genai with
    | false => simp
    | true =>
      cases hk : optTruthy key with
      | false => simp
      | true => simp [he]
  · intro img t hg hk hr hgen
    have he : merge_vision_core env ref p = Except.ok (pyStrip t) := by
      simp [merge_vision_core, hr, hgen]
    simp [merge_vision_and_prompt, hg, hk, he]

/-- C7, witness: the success branch applied at a concrete environment whose
model answers with padded text; the merger returns it stripped. The failure
branches are exercised in the theorem itself; here the hypotheses are
discharged at the http reference "http://img". -/
theorem c7_witness :
    merge_vision_and_prompt venvTrivial (some "k") "http://img" "user prompt"
      = pyStrip "merged scene" :=
  (c7_merge_never_raises venvTrivial (some "k") "http://img" "user prompt").2.2.2.2
    (some 0) "merged scene" rfl rfl rfl rfl

/-- C8: for every network and every input that builds a valid body, the
fallback chain of remove_background — a primary 400 triggers the first
alternative, another 400 the second, exactly this order and at most two
fallback attempts; any attempt returning 200 succeeds immediately with that
response body; a primary response other than 400 triggers no fallback; and a
400 from all three surfaces the failure of the final response. -/
theorem c8_fallback_chain (net : String → List (String × BodyVal) → HttpResp)
    (image_data : Option (List Nat)) (image_url : Option String)
    (sync cm : Bool) (body : List (String × BodyVal))
    (hb : rb_body image_data image_url sync cm = Except.ok body) :
    let res := remove_background net image_data image_url sync cm
    ((net rb_primary_url body).status ≠ 400 → res.1 = [rb_primary_url])
    ∧ ((net rb_primary_url body).status = 400 →
        (net rb_alt1_url body).status ≠ 400 → res.1 = [rb_primary_url, rb_alt1_url])
    ∧ ((net rb_primary_url body).status = 400 →
        (net rb_alt1_url body).status = 400 →
        res.1 = [rb_primary_url, rb_alt1_url, rb_alt2_url])
    ∧ ((net rb_primary_url body).status = 200 →
        res.2 = Except.ok (net rb_primary_url body).body)
    ∧ ((net rb_primary_url body).status = 400 →
        (net rb_alt1_url body).status = 200 →
        res.2 = Except.ok (net rb_alt1_url body).body)
    ∧ ((net rb_primary_url body).status = 400 →
        (net rb_alt1_url body).status = 400 →
        (net rb_alt2_url body).status = 200 →
        res.2 = Except.ok (net rb_alt2_url body).body)
    ∧ ((net rb_primary_url body).status = 400 →
        (net rb_alt1_url body).status = 400 →
        400 ≤ (net rb_alt2_url body).status →
        res.2 = Except.error (RBErr.httpError (net rb_alt2_url body).status)) := by
  refine ⟨?_, ?_, ?_, ?_, ?_, ?_, ?_⟩
  · intro h1; simp [remove_background, hb, h1]
  · intro h1 h2; simp [remove_background, hb, h1, h2]
  · intro h1 h2; simp [remove_background, hb, h1, h2]
  · intro h1
    have hne : (net rb_primary_url body).status ≠ 400 := by omega
    simp [remove_background, hb, hne, rb_finish, h1]
  · intro h1 h2
    have hne : (net rb_alt1_url body).status ≠ 400 := by omega
    simp [remove_background, hb, h1, hne, rb_finish, h2]
  · intro h1 h2 h3
    simp [remove_background, hb, h1, h2, rb_finish, h3]
  · intro h1 h2 h3
    simp [remove_background, hb, h1, h2, rb_finish, Nat.not_lt.mpr h3, h3]

/-- C8, witness: the theorem applied at a concrete url-input request against
`netTwoFallbacks`: all three endpoints are attempted in order and the second
alternative's 200 body is returned. -/
theorem c8_witness :
    (remove_background netTwoFallbacks none (some "http://i") true false).1
      = [rb_primary_url, rb_alt1_url, rb_alt2_url]
    ∧ (remove_background netTwoFallbacks none (some "http://i") true false).2
      = Except.ok (Json.str "done") :=
  ⟨((c8_fallback_chain netTwoFallbacks none (some "http://i") true false
      [("sync", BodyVal.b true), ("content_moderation", BodyVal.b false),
       ("image_url", BodyVal.s "http://i")] rfl).2.2.1 rfl rfl),
   ((c8_fallback_chain netTwoFallbacks none (some "http://i") true false
      [("sync", BodyVal.b true), ("content_moderation", BodyVal.b false),
       ("image_url", BodyVal.s "http://i")] rfl).2.2.2.2.2.1 rfl rfl rfl)⟩

theorem runPoll_checks_le (poll : Nat → PollStatus) :
    ∀ fuel idx, (runPoll poll fuel idx).1 ≤ fuel := by
  intro fuel
  induction fuel with
  | zero => intro idx; simp [runPoll]
  | succ n ih =>
    intro idx
    simp only [runPoll]
    cases poll idx with
    | notDone => simpa using ih (idx + 1)
    | done e uri => cases he : optTruthy e <;> simp [he]

theorem runPoll_elapsed (poll : Nat → PollStatus) :
    ∀ fuel idx, (runPoll poll fuel idx).2.1 = 10 * (runPoll poll fuel idx).1 := by
  intro fuel
  induction fuel with
  | zero => intro idx; simp [runPoll]
  | succ n ih =>
    intro fuelidx
    simp only [runPoll]
    cases poll fuelidx with
    | notDone =>
      have := ih (fuelidx + 1)
      simp only
      omega
    | done e uri => cases he : optTruthy e <;> simp [he]

theorem runPoll_never_done (poll : Nat → PollStatus) :
    ∀ fuel idx, (∀ k, k < fuel → poll (idx + k) = PollStatus.notDone) →
      runPoll poll fuel idx = (fuel, 10 * fuel, VideoResponse.timeout) := by
  intro fuel
  induction fuel with
  | zero => intro idx _; simp [runPoll]
  | succ n ih =>
    intro idx hall
    have h0 : poll idx = PollStatus.notDone := by
      have := hall 0 (Nat.succ_pos n)
      simpa using this
    have hrest : runPoll poll n (idx + 1) = (n, 10 * n, VideoResponse.timeout) := by
      apply ih
      intro k hk
      have := hall (k + 1) (by omega)
      simpa [Nat.add_assoc, Nat.add_comm 1 k] using this
    simp only [runPoll, h0, hrest, Prod.mk.injEq]
    refine ⟨trivial, by omega, trivial⟩

/-- C9: for every poll oracle, the loop makes at most 40 status checks and
sleeps a fixed 10 seconds before every check it makes (elapsed time is ten
times the number of checks); and a submission for which no poll reports
completion terminates after exactly 40 checks and 400 seconds with the
timeout outcome, which the handler returns with the distinct HTTP status 504. -/
theorem c9_poll_bounded (poll : Nat → PollStatus) :
    (api_generate_video_poll poll).1 ≤ 40
    ∧ (api_generate_video_poll poll).2.1 = 10 * (api_generate_video_poll poll).1
    ∧ ((∀ k, k < 40 → poll k = PollStatus.notDone) →
        api_generate_video_poll poll = (40, 400, VideoResponse.timeout)
        ∧ videoHttpStatus VideoResponse.timeout = 504
        ∧ videoHttpStatus VideoResponse.timeout ≠ 200
        ∧ videoHttpStatus VideoResponse.timeout ≠ 500) := by
  refine ⟨runPoll_checks_le poll 40 0, runPoll_elapsed poll 40 0, ?_⟩
  intro hall
  have := runPoll_never_done poll 40 0 (fun k hk => by simpa using hall k hk)
  exact ⟨this, rfl, by decide, by decide⟩

/-- C9, witness: the theorem's timeout branch applied to the oracle that
never completes: exactly 40 polls, 400 seconds, timeout with status 504. -/
theorem c9_witness :
    api_generate_video_poll (fun _ => PollStatus.notDone)
      = (40, 400, VideoResponse.timeout)
    ∧ videoHttpStatus VideoResponse.timeout = 504 :=
  ⟨((c9_poll_bounded (fun _ => PollStatus.notDone)).2.2 (fun _ _ => rfl)).1,
   ((c9_poll_bounded (fun _ => PollStatus.notDone)).2.2 (fun _ _ => rfl)).2.1⟩

/-- C10: when both a truthy image_url and truthy image bytes are given,
remove_background's request body holds the image_url key with the given url
and no file key — image_url takes precedence and the bytes are silently
ignored; and every body the function actually posts holds exactly one of the
file and image_url keys. -/
theorem c10_image_url_precedence (image_data : Option (List Nat))
    (image_url : Option String) (sync cm : Bool) :
    (optTruthy image_url = true → bytesTruthy image_data = true →
      rb_body image_data image_url sync cm
        = Except.ok [("sync", BodyVal.b sync), ("content_moderation", BodyVal.b cm),
            ("image_url", BodyVal.s (image_url.getD ""))]
      ∧ (∀ body, rb_body image_data image_url sync cm = Except.ok body →
          hasKey body "image_url" = true ∧ hasKey body "file" = false))
    ∧ (∀ body, rb_body image_data image_url sync cm = Except.ok body →
        (hasKey body "image_url" = true ∧ hasKey body "file" = false)
        ∨ (hasKey body "file" = true ∧ hasKey body "image_url" = false)) := by
  constructor
  · intro hu _
    have hb : rb_body image_data image_url sync cm
        = Except.ok [("sync", BodyVal.b sync), ("content_moderation", BodyVal.b cm),
            ("image_url", BodyVal.s (image_url.getD ""))] := by
      simp [rb_body, hu]
    refine ⟨hb, ?_⟩
    intro body h
    rw [hb] at h
    simp only [Except.ok.injEq] at h
    rw [← h]
    exact ⟨rfl, rfl⟩
  · intro body h
    cases hu : optTruthy image_url with
    | true =>
      left
      have hb : rb_body image_data image_url sync cm
          = Except.ok [("sync", BodyVal.b sync), ("content_moderation", BodyVal.b cm),
              ("image_url", BodyVal.s (image_url.getD ""))] := by
        simp [rb_body, hu]
      rw [hb] at h
      simp only [Except.ok.injEq] at h
      rw [← h]
      exact ⟨rfl, rfl⟩
    | false =>
      cases hd : bytesTruthy image_data with
      | true =>
        right
        have hb : rb_body image_data image_url sync cm
            = Except.ok [("sync", BodyVal.b sync), ("content_moderation", BodyVal.b cm),
                ("file", BodyVal.s (b64encode (image_data.getD [])))] := by
          simp [rb_body, hu, hd]
        rw [hb] at h
        simp only [Except.ok.injEq] at h
        rw [← h]
        exact ⟨rfl, rfl⟩
      | false =>
        exfalso
        have hb : rb_body image_data image_url sync cm = Except.error PyErr.exception := by
          simp [rb_body, hu, hd]
        rw [hb] at h
        exact Except.noConfusion h

/-- C10, witness: the theorem applied with both the url "http://i" and the
bytes "hi" provided: the body carries the url, no file key. -/
theorem c10_witness :
    rb_body (some [104, 105]) (some "http://i") true false
      = Except.ok [("sync", BodyVal.b true), ("content_moderation", BodyVal.b false),
          ("image_url", BodyVal.s "http://i")] :=
  ((c10_image_url_precedence (some [104, 105]) (some "http://i") true false).1 rfl rfl).1
